import Mathlib

/-!
Verification of the MedGemma FHIR-Bridge frontend and pipeline contracts.

Shallow embedding of the repository's JavaScript sources
(frontend/src/services/api.js, frontend/src/components/UploadModal.jsx,
frontend/src/components/FHIRViewer/FHIRViewer.jsx, the App component, the
Settings ConfigurationPage, and the alternative revisions shipped as
src/unnamed/part_004, part_006 and part_007), together with models of the
backend semantic firewall and FHIR builder, which are documented but whose
Python source is not part of this repository.

Machine values (JavaScript numbers used for lab values) are modelled as
rationals; JavaScript `undefined`/`null` is modelled with `Option`;
JavaScript exceptions are modelled with `Except`.
-/

namespace MedGemma

/-- A JavaScript value as it appears in an extracted lab row: a number,
a string, or null/undefined. -/
inductive JsVal where
  | num (q : ℚ)
  | str (s : String)
  | undef
deriving DecidableEq, Repr

/-- Interpretation flag of a lab row: High, Low or Normal. -/
inductive Flag where
  | H
  | L
  | N
deriving DecidableEq, Repr

/-- A reference range attached to a lab row: either a numeric low/high
interval or free text. -/
inductive RefRange where
  | interval (low high : ℚ)
  | freetext (s : String)
deriving DecidableEq, Repr

/-- An extracted lab row as produced by the hybrid parser: test name,
value, unit, reference range and flag (`ExtractedRow` of the data model). -/
structure ExtractedRow where
  test_name : String
  value : JsVal
  unit : Option String
  reference_range : Option RefRange
  flag : Option Flag
deriving DecidableEq, Repr

/-- A FHIR `valueQuantity`: a numeric value and a unit, either of which a
malformed resource may omit (JS `undefined`). -/
structure Quantity where
  value : Option ℚ
  unit : Option String
deriving DecidableEq, Repr

/-- The part of a FHIR Observation resource the claims are about: the two
mutually exclusive value carriers and the interpretation code. -/
structure Observation where
  valueQuantity : Option Quantity
  valueString : Option String
  interpretation : Option Flag
deriving DecidableEq, Repr

/-- A FHIR bundle entry resource: a Patient (identified by its display
name) or an Observation. -/
inductive Resource where
  | patient (name : String)
  | obs (o : Observation)
deriving DecidableEq, Repr

/-- The `resourceType` discriminator string of a resource, as stored in
the JSON and tested by the frontend filters. -/
def Resource.resourceType : Resource → String
  | .patient _ => "Patient"
  | .obs _ => "Observation"

/-- A bundle entry: `{resource: ...}`. -/
structure BundleEntry where
  resource : Resource
deriving DecidableEq, Repr

/-- A FHIR bundle: its entry list, which a malformed payload may omit
(`fhir_bundle?.entry?` in FHIRViewer.jsx). -/
structure Bundle where
  entry : Option (List BundleEntry)
deriving DecidableEq, Repr

/-- A submission record as handed to the FHIR viewer: its id and its
bundle, either of which may be missing. -/
structure Submission where
  id : Option String
  fhir_bundle : Option Bundle
deriving DecidableEq, Repr

/-! ### FHIRViewer.jsx: value accessors and the stale-data safeguard -/

/-- `getValue` of FHIRViewer.jsx lines 144-148: returns
`obs.valueQuantity.value` when `valueQuantity` is present (an object is
always truthy), else `obs.valueString` when that string is truthy (the
empty string is falsy in JS), else the literal string `N/A`. -/
def getValue (obs : Observation) : JsVal :=
  match obs.valueQuantity with
  | some q =>
    match q.value with
    | some v => .num v
    | none => .undef
  | none =>
    match obs.valueString with
    | some s => if s = "" then .str "N/A" else .str s
    | none => .str "N/A"

/-- `getUnit` of FHIRViewer.jsx lines 266-269: returns
`obs.valueQuantity.unit` when `valueQuantity` is present (possibly
`undefined`, modelled `none`), else the empty string. -/
def getUnit (obs : Observation) : Option String :=
  match obs.valueQuantity with
  | some q => q.unit
  | none => some ""

/-- Observation count of a possibly absent submission, FHIRViewer.jsx
lines 114-115: `s?.fhir_bundle?.entry?.filter(e =>
e.resource.resourceType === 'Observation').length || 0`. -/
def obsCount (s : Option Submission) : Nat :=
  match s with
  | none => 0
  | some sub =>
    match sub.fhir_bundle with
    | none => 0
    | some b =>
      match b.entry with
      | none => 0
      | some es => (es.filter (fun e => e.resource.resourceType = "Observation")).length

/-- The stale-data sync effect of FHIRViewer.jsx lines 110-123: the new
value of `localData` after the effect runs with the given `isReloading`
flag, current `localData` and incoming prop `data`. Incoming data is
adopted unless a reload is in flight, the data is absent, or the
safeguard fires (incoming bundle has strictly fewer Observations while
the local bundle has more than 3). -/
def syncStep (isReloading : Bool) (localData : Option Submission)
    (data : Option Submission) : Option Submission :=
  if isReloading then localData
  else
    match data with
    | none => localData
    | some d =>
      if obsCount (some d) < obsCount localData ∧ 3 < obsCount localData then localData
      else some d

/-! ### services/api.js (and its revision src/unnamed/part_007): response
handling and API key provisioning -/

/-- The body of an HTTP response as the handler's parsing attempts see it:
a JSON object with a string `detail` field, a JSON object whose `detail`
is not a string (rendered by `JSON.stringify`), a JSON body without a
`detail` field, or a body that is not JSON at all (its raw text). -/
inductive Body where
  | jsonDetailStr (detail : String)
  | jsonDetailObj (rendered : String)
  | jsonPlain (rendered : String)
  | notJson (text : String)
deriving DecidableEq, Repr

/-- An HTTP response: its status code and its body. -/
structure HttpResponse where
  status : Nat
  body : Body
deriving DecidableEq, Repr

/-- The `ok` property of a fetch Response: status in the range 200-299. -/
def HttpResponse.ok (r : HttpResponse) : Bool :=
  decide (200 ≤ r.status) && decide (r.status < 300)

/-- The error message assembled by `handleResponse` for a non-ok
response: the server's string `detail` if there is one, the stringified
`detail` if it is not a string, otherwise `Server Error (<status>)`,
suffixed with the raw body text when the body was not JSON and non-empty
(the empty string is falsy in JS). -/
def errorMessage (r : HttpResponse) : String :=
  match r.body with
  | .jsonDetailStr d => d
  | .jsonDetailObj rendered => rendered
  | .jsonPlain _ => "Server Error (" ++ toString r.status ++ ")"
  | .notJson t =>
    if t = "" then "Server Error (" ++ toString r.status ++ ")"
    else "Server Error (" ++ toString r.status ++ "): " ++ t

/-- A stored API key object, as kept in the `medgemma_api_keys`
localStorage entry. -/
structure ApiKey where
  id : String
  name : String
  key : String
  created : String
  role : String
deriving DecidableEq, Repr

/-- The `medgemma_api_keys` localStorage slot: `none` when the entry is
absent, `some keys` when it holds a serialized key list. -/
def KeyStore := Option (List ApiKey)
deriving DecidableEq

/-- `handleResponse` of frontend/src/services/api.js lines 7-24: never
touches localStorage; throws an Error carrying `errorMessage` for every
non-ok response, and returns the parsed JSON body otherwise. The result
pairs the key store after the call with the outcome. -/
def handleResponseFrontend (r : HttpResponse) (store : KeyStore) :
    KeyStore × Except String Body :=
  if r.ok then (store, .ok r.body) else (store, .error (errorMessage r))

/-- `handleResponse` of src/unnamed/part_007 lines 7-30: first removes
the `medgemma_api_keys` entry when the status is 401 or 403, then throws
for every non-ok response and returns the parsed JSON body otherwise. -/
def handleResponsePart007 (r : HttpResponse) (store : KeyStore) :
    KeyStore × Except String Body :=
  let store1 : KeyStore := if r.status = 401 ∨ r.status = 403 then none else store
  if r.ok then (store1, .ok r.body) else (store1, .error (errorMessage r))

/-- `getStoredApiKeys` of services/api.js: the parsed list when the entry
is present, the empty list otherwise (a parse failure also yields `[]`). -/
def getStoredApiKeys (store : KeyStore) : List ApiKey :=
  match store with
  | some keys => keys
  | none => []

/-- The alphabet of `generateKey` in services/api.js:
`'abcdef0123456789'`. -/
def keyChars : List Char := "abcdef0123456789".data

/-- `generateKey(length)` of services/api.js lines 167-175, with the
random byte source made explicit: each output character is
`chars[bytes[i] % chars.length]` over `length` positions. -/
def generateKey (bytes : Nat → Nat) (length : Nat) : String :=
  String.mk ((List.range length).map (fun i => keyChars.getD (bytes i % 16) ' '))

/-- The key string built by every client-side creation path
(`autoProvisionApiKey` in api.js line 186, and both ConfigurationPage
paths, lines 16 and 41): `'sk-' + generateKey(48)`. -/
def mkClientKey (bytes : Nat → Nat) : String :=
  "sk-" ++ generateKey bytes 48

/-- `autoProvisionApiKey` of frontend/src/services/api.js lines 180-195:
if no key is stored, create one locally (the fresh key object `nk` is the
one it would build from `generateId`/`generateKey`/the current date),
save exactly that one, and return it; otherwise return the first stored
key and leave the store alone. -/
def autoProvisionFrontend (store : KeyStore) (nk : ApiKey) :
    KeyStore × ApiKey :=
  match getStoredApiKeys store with
  | [] => (some [nk], nk)
  | k :: _ => (store, k)

/-- `autoProvisionApiKey` of src/unnamed/part_007 lines 190-222: if a key
is stored, return the first; otherwise POST to `/auth/register` (its
outcome is the `registered` parameter): on success save and return the
received key, on failure store nothing and return null. -/
def autoProvisionBackend (store : KeyStore) (registered : Option ApiKey) :
    KeyStore × Option ApiKey :=
  match getStoredApiKeys store with
  | k :: _ => (store, some k)
  | [] =>
    match registered with
    | some nk => (some [nk], some nk)
    | none => (store, none)

/-! ### UploadModal.jsx: file selection state machine and accept filter -/

/-- A file as the dropzone filter sees it: its declared MIME type and
its name. -/
structure FileMeta where
  mime : String
  name : String
deriving DecidableEq, Repr

/-- The characters of a string lowercased, JS `s.toLowerCase()`. -/
def lowerData (s : String) : List Char := s.data.map Char.toLower

/-- Whether `l` ends with `suffix`, JS `l.endsWith(suffix)` on the
character lists. -/
def strEndsWith (l suffix : List Char) : Bool :=
  l.drop (l.length - suffix.length) == suffix

/-- The base of a MIME type, as attr-accept computes it for a wildcard
token: everything before the first slash (`image/png` gives `image`). -/
def baseMime (mime : String) : String :=
  ⟨mime.data.takeWhile (fun c => c ≠ '/')⟩

/-- Whether a file name matches an extension token of an accept filter:
`fileName.toLowerCase().endsWith(token)`. -/
def extMatches (name token : String) : Bool :=
  strEndsWith (lowerData name) token.data

/-- The dropzone accept filter of UploadModal.jsx lines 23-29,
`accept: { 'image/*': ['.jpeg', '.jpg', '.png', '.webp'] }`, flattened by
react-dropzone to the token list `image/*,.jpeg,.jpg,.png,.webp`: a file
is accepted when its MIME base is `image` or its name matches one of the
four image extensions. -/
def dropzoneAccepts (f : FileMeta) : Bool :=
  baseMime f.mime = "image" ||
    [".jpeg", ".jpg", ".png", ".webp"].any (fun t => extMatches f.name t)

/-- The legacy file input filter of App.jsx line 203,
`accept="image/*,.pdf"`: a file is accepted when its MIME base is `image`
or its name ends in `.pdf`. -/
def appInputAccepts (f : FileMeta) : Bool :=
  baseMime f.mime = "image" || extMatches f.name ".pdf"

/-- The modal's state: the `patientId` and `files` useState slots of
UploadModal.jsx lines 7-8. -/
structure ModalState where
  patientId : String
  files : List FileMeta
deriving DecidableEq, Repr

/-- The modal's initial state: empty patient id, no files. -/
def modalInit : ModalState := ⟨"", []⟩

/-- The user interactions that change the modal's selection state:
a drop of accepted files, removal of the file at an index, and typing
the patient id. -/
inductive ModalEvent where
  | drop (accepted : List FileMeta)
  | removeAt (i : Nat)
  | setPatient (s : String)
deriving DecidableEq, Repr

/-- `onDrop` of UploadModal.jsx lines 10-21: append the accepted files to
the current selection; if that exceeds 8 files, keep only the first 8; an
empty accepted list changes nothing. -/
def onDrop (files accepted : List FileMeta) : List FileMeta :=
  if 0 < accepted.length then
    let combined := files ++ accepted
    if 8 < combined.length then combined.take 8 else combined
  else files

/-- `removeFile` of UploadModal.jsx lines 31-34:
`files.filter((_, i) => i !== index)`. -/
def removeFileAt (files : List FileMeta) (i : Nat) : List FileMeta :=
  files.eraseIdx i

/-- One step of the modal state machine. -/
def modalStep (s : ModalState) (e : ModalEvent) : ModalState :=
  match e with
  | .drop accepted => { s with files := onDrop s.files accepted }
  | .removeAt i => { s with files := removeFileAt s.files i }
  | .setPatient p => { s with patientId := p }

/-- The modal state after a sequence of interactions from the initial
state. -/
def modalRun (events : List ModalEvent) : ModalState :=
  events.foldl modalStep modalInit

/-- The submit button's enablement, UploadModal.jsx line 141:
`disabled={!patientId || files.length === 0}`; the empty string is falsy. -/
def submitEnabled (s : ModalState) : Bool :=
  !(s.patientId = "") && !(s.files.length = 0)

/-! ### The App component of src/unnamed/part_004: bounded activity log -/

/-- One activity log entry: message and wall-clock time string. -/
structure LogEntry where
  message : String
  time : String
deriving DecidableEq, Repr

/-- JavaScript `array.slice(-n)`: the last `min n length` elements,
in order. -/
def jsSliceLast (n : Nat) (l : List LogEntry) : List LogEntry :=
  l.drop (l.length - n)

/-- The `log` state update of src/unnamed/part_004 lines 36-43: append
the new entry, then keep only the last 50 entries. -/
def appLog (logs : List LogEntry) (e : LogEntry) : List LogEntry :=
  jsSliceLast 50 (logs ++ [e])

/-- One call to `log` together with the persistence effect of
src/unnamed/part_004 lines 31-33 (the `medgemma_activity_logs`
localStorage entry is rewritten with the new state whenever it changes):
the pair of the React state and the persisted list after the call. -/
def appLogStep (state : List LogEntry) (e : LogEntry) :
    List LogEntry × List LogEntry :=
  let state1 := appLog state e
  (state1, state1)

/-! ### Semantic firewall and FHIR builder

The Python pipeline core (`medgemma/extraction.py` with
`sanitize_extraction`, and the FHIR builder) is documented in the
repository (src/unnamed/part_013, README) but its source is not part of
this repository; the relevant rules are modelled from the specification. -/

/-- Modelled from the spec: the re-flagging step of firewall rules 5 and
10 for a numeric value against a row's reference range — `L` below the
low bound, `H` above the high bound, `N` inside; with no numeric range
the flag is cleared. The value is compared in the scale the printed
range uses (for platelet rows the range `150-450` is in 10^3/uL, the
scale of the extracted count before scaling, which is what makes the
specification's Scenario A produce flag `N`). -/
def reflagFromRange (v : ℚ) (rr : Option RefRange) : Option Flag :=
  match rr with
  | some (.interval low high) =>
    some (if v < low then .L else if high < v then .H else .N)
  | some (.freetext _) => none
  | none => none

/-- Modelled from the spec: the platelet scaling repair (rule 5 of the
semantic firewall in `sanitize_extraction`, whose Python source is not in
this repository). If the test name is `Platelet Count`, the value is
numeric and below 1000, and the unit is `/uL`, `uL` or null: multiply the
value by 1000, set the unit to `/uL`, invalidate an `L` flag by
recomputing it from the reference range (clearing it when no numeric
range is present), and record the repair note `platelet_scaled`. -/
def plateletScalingRepair (r : ExtractedRow) : ExtractedRow × List String :=
  match r.value with
  | .num v =>
    if r.test_name = "Platelet Count" ∧ v < 1000 ∧
        (r.unit = some "/uL" ∨ r.unit = some "uL" ∨ r.unit = none) then
      let flag1 := if r.flag = some .L then reflagFromRange v r.reference_range else r.flag
      ({ r with value := .num (v * 1000), unit := some "/uL", flag := flag1 },
        ["platelet_scaled"])
    else (r, [])
  | _ => (r, [])

/-- Modelled from the spec: the rendering of a non-quantity value into a
FHIR `valueString` (the specification fixes only that such rows get a
`valueString`). -/
def renderValue (v : JsVal) : String :=
  match v with
  | .str s => s
  | .num q => if q.den = 1 then toString q.num else toString q.num ++ "/" ++ toString q.den
  | .undef => ""

/-- Modelled from the spec: the FHIR builder's Observation construction
(§4.6, Python source not in this repository): a numeric value with a unit
becomes a `valueQuantity` carrying both; any other row becomes a
`valueString`; the row's flag becomes the interpretation code. -/
def buildObservation (r : ExtractedRow) : Observation :=
  match r.value, r.unit with
  | .num v, some u =>
    { valueQuantity := some ⟨some v, some u⟩, valueString := none,
      interpretation := r.flag }
  | v, _ =>
    { valueQuantity := none, valueString := some (renderValue v),
      interpretation := r.flag }

/-- Modelled from the spec: a persisted bundle on the success path — one
Patient entry followed by one Observation entry per sanitized row. -/
def buildBundle (patientName : String) (rows : List ExtractedRow) : Bundle :=
  ⟨some (⟨.patient patientName⟩ :: rows.map (fun r => ⟨.obs (buildObservation r)⟩))⟩

/-- Modelled from the spec: the safety-mode fallback bundle persisted
when repair attempts are exhausted — the Patient plus one annotation
Observation noting degraded extraction. -/
def fallbackBundle (patientName : String) : Bundle :=
  ⟨some [⟨.patient patientName⟩,
    ⟨.obs { valueQuantity := none, valueString := some "degraded extraction",
            interpretation := none }⟩]⟩

/-! ### Concrete instances used by the checks below -/

/-- Scenario A input row of the specification: the extracted table line
`Platelet Count 370 /uL 150-450 L`. -/
def row370 : ExtractedRow :=
  ⟨"Platelet Count", .num 370, some "/uL", some (.interval 150 450), some .L⟩

/-- A 403 response whose JSON body carries a string detail. -/
def resp403 : HttpResponse := ⟨403, .jsonDetailStr "Not authenticated"⟩

/-- A 500 response with a JSON body and no detail field. -/
def resp500 : HttpResponse := ⟨500, .jsonPlain ""⟩

/-- A cached API key object. -/
def cachedKey : ApiKey := ⟨"id1", "Frontend Client", "sk-0a1b", "2025-01-01", "Internal"⟩

/-- A key store holding one cached key. -/
def storeWithKey : KeyStore := some [cachedKey]

/-- A fresh key object as the provisioning path would build it. -/
def freshKey : ApiKey :=
  ⟨"id2", "Auto-Generated Demo Key", "sk-2c3d", "2025-01-02", "Internal"⟩

/-- A second fresh key object, for the second of two successive calls. -/
def freshKey2 : ApiKey :=
  ⟨"id3", "Auto-Generated Demo Key", "sk-4e5f", "2025-01-03", "Internal"⟩

/-- A bundle entry holding a minimal Observation, used to populate
submissions of a given size. -/
def obsEntryX : BundleEntry := ⟨.obs ⟨none, some "x", none⟩⟩

/-- A submission whose bundle holds exactly `n` Observation entries. -/
def subWithObs (n : Nat) : Submission :=
  ⟨some "s1", some ⟨some (List.replicate n obsEntryX)⟩⟩

/-- An Observation carrying an empty `valueString` and no
`valueQuantity`. -/
def obsEmptyStr : Observation := ⟨none, some "", none⟩

/-- A plain numeric lab row: `Hemoglobin 13 g/dL`. -/
def hbRow : ExtractedRow := ⟨"Hemoglobin", .num 13, some "g/dL", none, none⟩

/-- A PNG image file as the dropzone sees it. -/
def filePng : FileMeta := ⟨"image/png", "a.png"⟩

/-- The sixteen lowercase hexadecimal digits, in their usual order
(distinct from the generator's alphabet order). -/
def lowerHexChars : List Char := "0123456789abcdef".data

/-- A concrete activity log entry. -/
def logA : LogEntry := ⟨"Initializing secure session", "12:00:00"⟩

/-- An Observation carrying a quantity of 7 g/dL. -/
def obsNum7 : Observation := ⟨some ⟨some 7, some "g/dL"⟩, none, none⟩

/-- An Observation carrying only the non-empty valueString `abc`. -/
def obsAbc : Observation := ⟨none, some "abc", none⟩

/-! ## Theorems -/

/-- C1: for every extracted lab row named `Platelet Count` with a numeric
value below 1000 and unit `/uL`, `uL` or null, the semantic firewall
multiplies the value by 1000, sets the unit to `/uL`, records the repair
note `platelet_scaled`, and invalidates an `L` flag by recomputing it
from the reference range. -/
theorem platelet_scaling_repairs_row (r : ExtractedRow) (v : ℚ)
    (hname : r.test_name = "Platelet Count")
    (hval : r.value = .num v)
    (hlt : v < 1000)
    (hunit : r.unit = some "/uL" ∨ r.unit = some "uL" ∨ r.unit = none) :
    (plateletScalingRepair r).1.value = .num (v * 1000) ∧
    (plateletScalingRepair r).1.unit = some "/uL" ∧
    (plateletScalingRepair r).2 = ["platelet_scaled"] ∧
    (r.flag = some .L →
      (plateletScalingRepair r).1.flag = reflagFromRange v r.reference_range) := by
  have hcond : r.test_name = "Platelet Count" ∧ v < 1000 ∧
      (r.unit = some "/uL" ∨ r.unit = some "uL" ∨ r.unit = none) :=
    ⟨hname, hlt, hunit⟩
  have heq : plateletScalingRepair r =
      ({ r with
          value := .num (v * 1000)
          unit := some "/uL"
          flag := if r.flag = some .L then reflagFromRange v r.reference_range
            else r.flag },
        ["platelet_scaled"]) := by
    simp only [plateletScalingRepair, hval]
    rw [if_pos hcond]
  rw [heq]
  refine ⟨rfl, rfl, rfl, fun hL => ?_⟩
  simp only [if_pos hL]

/-- C1 witness: Scenario A. The row `Platelet Count 370 /uL 150-450 L`
is repaired to value 370000 with unit `/uL` and note `platelet_scaled`,
and the built Observation carries `valueQuantity{370000, /uL}` with
interpretation code `N`. -/
theorem platelet_scaling_repairs_row_witness :
    (plateletScalingRepair row370).1.value = .num 370000 ∧
    (plateletScalingRepair row370).1.unit = some "/uL" ∧
    (plateletScalingRepair row370).2 = ["platelet_scaled"] ∧
    buildObservation (plateletScalingRepair row370).1 =
      { valueQuantity := some ⟨some 370000, some "/uL"⟩, valueString := none,
        interpretation := some .N } := by
  have h := platelet_scaling_repairs_row row370 370 rfl rfl (by norm_num)
    (Or.inl rfl)
  have hmul : (370 * 1000 : ℚ) = 370000 := by norm_num
  have hval1 : (plateletScalingRepair row370).1.value = .num 370000 := by
    rw [h.1, hmul]
  have hflag1 : (plateletScalingRepair row370).1.flag = some .N := by
    rw [h.2.2.2 rfl]
    show reflagFromRange 370 (some (.interval 150 450)) = some .N
    norm_num [reflagFromRange]
  refine ⟨hval1, h.2.1, h.2.2.1, ?_⟩
  simp only [buildObservation, hval1, h.2.1, hflag1]

/-- C2: every Observation entry of a persisted bundle — a success-path
bundle built from sanitized rows or the safety-mode fallback bundle —
carries exactly one of `valueQuantity` (then with a numeric value and a
unit) or `valueString`, never both and never neither. -/
theorem persisted_observation_value_exclusive (p : String)
    (rows : List ExtractedRow) (o : Observation)
    (h : BundleEntry.mk (.obs o) ∈ ((buildBundle p rows).entry.getD []) ∨
      BundleEntry.mk (.obs o) ∈ ((fallbackBundle p).entry.getD [])) :
    ((o.valueQuantity.isSome && o.valueString.isSome) = false) ∧
    ((o.valueQuantity.isSome || o.valueString.isSome) = true) ∧
    (∀ q, o.valueQuantity = some q →
      q.value.isSome = true ∧ q.unit.isSome = true) := by
  have hform : o.valueQuantity = none ∧ (∃ s, o.valueString = some s) ∨
      (∃ v u, o.valueQuantity = some ⟨some v, some u⟩ ∧ o.valueString = none) := by
    rcases h with h | h
    · simp only [buildBundle, Option.getD_some] at h
      rcases List.mem_cons.mp h with h1 | h2
      · exact absurd (congrArg BundleEntry.resource h1) (by simp)
      · obtain ⟨r, _, hmk⟩ := List.mem_map.mp h2
        have hro : buildObservation r = o := by
          have := congrArg BundleEntry.resource hmk
          simpa using this
        rw [← hro]
        unfold buildObservation
        rcases r.value with v | s | _ <;> rcases hu : r.unit with _ | u <;> simp
    · simp only [fallbackBundle, Option.getD_some, List.mem_cons,
        List.not_mem_nil, or_false] at h
      rcases h with h1 | h2
      · exact absurd (congrArg BundleEntry.resource h1) (by simp)
      · have ho := Resource.obs.inj (BundleEntry.mk.inj h2)
        rw [ho]
        simp
  rcases hform with ⟨hq, s, hs⟩ | ⟨v, u, hq, hs⟩ <;>
    simp [hq, hs]

/-- C2 witness: the Observation built from the row `Hemoglobin 13 g/dL`,
an entry of the bundle persisted for that single row, carries a
`valueQuantity` with numeric value and unit and no `valueString`. -/
theorem persisted_observation_value_exclusive_witness :
    (((buildObservation hbRow).valueQuantity.isSome &&
        (buildObservation hbRow).valueString.isSome) = false) ∧
    (((buildObservation hbRow).valueQuantity.isSome ||
        (buildObservation hbRow).valueString.isSome) = true) := by
  have hmem : BundleEntry.mk (.obs (buildObservation hbRow)) ∈
      ((buildBundle "Pat" [hbRow]).entry.getD []) := by
    simp [buildBundle]
  have h := persisted_observation_value_exclusive "Pat" [hbRow]
    (buildObservation hbRow) (Or.inl hmem)
  exact ⟨h.1, h.2.1⟩

/-- Each user interaction preserves the 8-file cap on the modal's
selection. -/
theorem modalStep_files_le (s : ModalState) (e : ModalEvent)
    (h : s.files.length ≤ 8) : (modalStep s e).files.length ≤ 8 := by
  cases e with
  | drop accepted =>
    simp only [modalStep, onDrop]
    split
    · split
      next hgt =>
        simp [Nat.min_le_left]
      next hle =>
        omega
    · exact h
  | removeAt i =>
    exact le_trans (List.length_eraseIdx_le s.files i) h
  | setPatient p => exact h

/-- C3: from the empty modal, after any sequence of drops, removals and
patient-id edits, the selection holds at most 8 files; whenever the
submit button is enabled the submitted list has between 1 and 8 files
and the patient id is non-empty; and a drop that would push the
selection above 8 files truncates it to the first 8 of the combined
list. -/
theorem upload_submission_bounds :
    (∀ events : List ModalEvent,
      (modalRun events).files.length ≤ 8 ∧
      (submitEnabled (modalRun events) = true →
        1 ≤ (modalRun events).files.length ∧
        (modalRun events).files.length ≤ 8 ∧
        (modalRun events).patientId ≠ "")) ∧
    (∀ files accepted : List FileMeta, 0 < accepted.length →
      8 < (files ++ accepted).length →
      onDrop files accepted = (files ++ accepted).take 8) := by
  constructor
  · intro events
    have hle : ∀ (s : ModalState), s.files.length ≤ 8 →
        (events.foldl modalStep s).files.length ≤ 8 := by
      induction events with
      | nil => intro s hs; exact hs
      | cons e es ih =>
        intro s hs
        exact ih (modalStep s e) (modalStep_files_le s e hs)
    have hrun : (modalRun events).files.length ≤ 8 := hle modalInit (by simp [modalInit])
    refine ⟨hrun, fun hen => ?_⟩
    have h2 : ¬((modalRun events).patientId = "") ∧
        ¬((modalRun events).files.length = 0) := by
      have := hen
      unfold submitEnabled at this
      constructor
      · intro hp
        simp [hp] at this
      · intro hf
        simp [hf] at this
    exact ⟨Nat.one_le_iff_ne_zero.mpr h2.2, hrun, h2.1⟩
  · intro files accepted hacc hgt
    unfold onDrop
    rw [if_pos hacc, if_pos hgt]

/-- C3 witness: dropping ten files at once leaves eight selected; with a
patient id typed the submit button is enabled and submits those eight;
and the ten-file drop keeps exactly the first eight of the combined
list. -/
theorem upload_submission_bounds_witness :
    (modalRun [.setPatient "PT-1", .drop (List.replicate 10 filePng)]).files.length ≤ 8 ∧
    1 ≤ (modalRun [.setPatient "PT-1", .drop (List.replicate 10 filePng)]).files.length ∧
    onDrop [] (List.replicate 10 filePng) =
      (([] : List FileMeta) ++ List.replicate 10 filePng).take 8 := by
  have h := upload_submission_bounds
  have h1 := (h.1 [.setPatient "PT-1", .drop (List.replicate 10 filePng)])
  have h2 := h1.2 (by decide)
  exact ⟨h1.1, h2.1,
    h.2 [] (List.replicate 10 filePng) (by decide) (by decide)⟩

/-- C4 counterexample: a file whose declared MIME type is
`application/pdf` (name `report.pdf`) is rejected by the UploadModal
dropzone, whose accept filter lists only `image/*` with the four image
extensions — contradicting the claim that the upload interface accepts
every file of declared MIME type image/* or application/pdf. -/
theorem dropzone_rejects_pdf :
    dropzoneAccepts ⟨"application/pdf", "report.pdf"⟩ = false := by
  decide

/-- C4 amended: the dropzone accepts exactly the files whose MIME base
type is `image` or whose lowercased name ends in `.jpeg`, `.jpg`, `.png`
or `.webp` — `application/pdf` files are not accepted there — while the
legacy App.jsx file input accepts exactly the files whose MIME base type
is `image` or whose lowercased name ends in `.pdf`. -/
theorem accept_filter_characterization (f : FileMeta) :
    (dropzoneAccepts f = true ↔
      (baseMime f.mime = "image" ∨ extMatches f.name ".jpeg" = true ∨
        extMatches f.name ".jpg" = true ∨ extMatches f.name ".png" = true ∨
        extMatches f.name ".webp" = true)) ∧
    (appInputAccepts f = true ↔
      (baseMime f.mime = "image" ∨ extMatches f.name ".pdf" = true)) := by
  constructor
  · simp [dropzoneAccepts, List.any]
  · simp [appInputAccepts]

/-- C4 witness: a PNG image is accepted by the dropzone via its MIME
base, and a PDF named `doc.pdf` is accepted by the legacy input via its
extension. -/
theorem accept_filter_characterization_witness :
    dropzoneAccepts filePng = true ∧
    appInputAccepts ⟨"application/pdf", "doc.pdf"⟩ = true := by
  refine ⟨(accept_filter_characterization filePng).1.mpr (Or.inl (by decide)),
    (accept_filter_characterization ⟨"application/pdf", "doc.pdf"⟩).2.mpr
      (Or.inr (by decide))⟩

/-- C5: whatever the random byte source yields, the key produced by the
client-side creation paths (autoProvisionApiKey and both
ConfigurationPage paths, all calling `'sk-' + generateKey(48)`) starts
with `sk-` and continues with exactly 48 — hence at least 32 — lowercase
hexadecimal characters. -/
theorem client_key_shape (bytes : Nat → Nat) :
    (mkClientKey bytes).data.take 3 = "sk-".data ∧
    32 ≤ ((mkClientKey bytes).data.drop 3).length ∧
    ∀ c ∈ (mkClientKey bytes).data.drop 3, c ∈ lowerHexChars := by
  have hd : (mkClientKey bytes).data =
      's' :: 'k' :: '-' ::
        ((List.range 48).map (fun i => keyChars.getD (bytes i % 16) ' ')) := rfl
  refine ⟨by rw [hd]; rfl, ?_, ?_⟩
  · rw [hd]
    simp
  · intro c hc
    have hdrop : (mkClientKey bytes).data.drop 3 =
        (List.range 48).map (fun i => keyChars.getD (bytes i % 16) ' ') := by
      rw [hd]
      rfl
    rw [hdrop] at hc
    obtain ⟨i, _, hi⟩ := List.mem_map.mp hc
    have hlt : bytes i % 16 < 16 := Nat.mod_lt _ (by norm_num)
    have hmem : ∀ n, n < 16 → keyChars.getD n ' ' ∈ lowerHexChars := by decide
    rw [← hi]
    exact hmem _ hlt

/-- C5 witness: with the identity byte source the generated key's fourth
character (the first after `sk-`) is `a`, a lowercase hex digit, and the
shape facts hold for that concrete key. -/
theorem client_key_shape_witness :
    (mkClientKey (fun i => i)).data.take 3 = "sk-".data ∧
    'a' ∈ lowerHexChars := by
  have h := client_key_shape (fun i => i)
  exact ⟨h.1, h.2.2 'a' (by decide)⟩

/-- C6 counterexample: the handleResponse of
frontend/src/services/api.js, given a 403 response while a key is
cached, throws the server's detail but leaves the cached
`medgemma_api_keys` entry in place — contradicting the claim that the
client response handler removes the cached entry on every 401/403. -/
theorem frontend_handler_keeps_keys_on_403 :
    (handleResponseFrontend resp403 storeWithKey).1 = storeWithKey ∧
    storeWithKey ≠ (none : KeyStore) ∧
    (handleResponseFrontend resp403 storeWithKey).2 =
      Except.error "Not authenticated" := by
  refine ⟨rfl, by decide, rfl⟩

/-- C6 amended: the part_007 revision's handleResponse removes the
cached `medgemma_api_keys` entry on every 401 or 403 response before
throwing, and on every other non-ok response leaves the cache unchanged
and throws an Error carrying the server's detail or status; the
frontend/src/services/api.js revision's handleResponse never modifies
the cache for any status and throws the same error for every non-ok
response. -/
theorem handle_response_variants (r : HttpResponse) (store : KeyStore) :
    (r.status = 401 ∨ r.status = 403 →
      (handleResponsePart007 r store).1 = none ∧
      (handleResponsePart007 r store).2 = Except.error (errorMessage r)) ∧
    (r.ok = false → ¬(r.status = 401 ∨ r.status = 403) →
      (handleResponsePart007 r store).1 = store ∧
      (handleResponsePart007 r store).2 = Except.error (errorMessage r)) ∧
    (handleResponseFrontend r store).1 = store ∧
    (r.ok = false → (handleResponseFrontend r store).2 =
      Except.error (errorMessage r)) := by
  refine ⟨fun h => ?_, fun hok hnot => ?_, ?_, fun hok => ?_⟩
  · have hnotok : r.ok = false := by
      rcases h with h | h <;> simp [HttpResponse.ok, h]
    unfold handleResponsePart007
    simp only [hnotok, if_pos h]
    simp
  · unfold handleResponsePart007
    simp only [hok, if_neg hnot]
    simp
  · unfold handleResponseFrontend
    split <;> rfl
  · unfold handleResponseFrontend
    simp only [hok]
    simp

/-- C6 witness: on the concrete 403 the part_007 handler clears the
cached keys, and on a concrete 500 it leaves them cached. -/
theorem handle_response_variants_witness :
    (handleResponsePart007 resp403 storeWithKey).1 = none ∧
    (handleResponsePart007 resp500 storeWithKey).1 = storeWithKey := by
  refine ⟨((handle_response_variants resp403 storeWithKey).1 (Or.inr rfl)).1,
    ((handle_response_variants resp500 storeWithKey).2.1 (by decide) (by decide)).1⟩

/-- C7 counterexample: the part_007 revision of autoProvisionApiKey,
called with no stored key while backend registration fails, stores
nothing and returns null — contradicting the claim that with no key
stored the call stores exactly one newly created key and returns it. -/
theorem auto_provision_backend_failure :
    autoProvisionBackend none none = ((none : KeyStore), (none : Option ApiKey)) := by
  rfl

/-- C7 amended: the synchronous autoProvisionApiKey of
frontend/src/services/api.js is idempotent on the stored key list — with
a key stored it returns the first and leaves the store unchanged, with
none stored it stores exactly the one newly created key and returns it,
and two successive calls always return the same key, leaving exactly one
stored key when starting from none. The part_007 revision shows the same
behaviour only when backend registration succeeds; when registration
fails with no key stored, it stores nothing and returns null. -/
theorem auto_provision_idempotent :
    (∀ (store : KeyStore) (nk k : ApiKey) (rest : List ApiKey),
      getStoredApiKeys store = k :: rest →
      autoProvisionFrontend store nk = (store, k)) ∧
    (∀ (store : KeyStore) (nk : ApiKey),
      getStoredApiKeys store = [] →
      autoProvisionFrontend store nk = (some [nk], nk)) ∧
    (∀ (store : KeyStore) (nk nk1 : ApiKey),
      (autoProvisionFrontend (autoProvisionFrontend store nk).1 nk1).2 =
        (autoProvisionFrontend store nk).2) ∧
    (∀ (store : KeyStore) (nk nk1 : ApiKey),
      getStoredApiKeys store = [] →
      (autoProvisionFrontend (autoProvisionFrontend store nk).1 nk1).1 =
        some [nk]) ∧
    (∀ (store : KeyStore) (nk : ApiKey),
      getStoredApiKeys store = [] →
      autoProvisionBackend store (some nk) = (some [nk], some nk)) ∧
    (∀ store : KeyStore,
      getStoredApiKeys store = [] →
      autoProvisionBackend store none = (store, none)) := by
  refine ⟨?_, ?_, ?_, ?_, ?_, ?_⟩
  · intro store nk k rest h
    unfold autoProvisionFrontend
    rw [h]
  · intro store nk h
    unfold autoProvisionFrontend
    rw [h]
  · intro store nk nk1
    cases h : getStoredApiKeys store with
    | nil =>
      have h1 : autoProvisionFrontend store nk = (some [nk], nk) := by
        unfold autoProvisionFrontend
        rw [h]
      rw [h1]
      rfl
    | cons k rest =>
      have h1 : autoProvisionFrontend store nk = (store, k) := by
        unfold autoProvisionFrontend
        rw [h]
      rw [h1]
      show (autoProvisionFrontend store nk1).2 = k
      unfold autoProvisionFrontend
      rw [h]
  · intro store nk nk1 h
    have h1 : autoProvisionFrontend store nk = (some [nk], nk) := by
      unfold autoProvisionFrontend
      rw [h]
    rw [h1]
    rfl
  · intro store nk h
    unfold autoProvisionBackend
    rw [h]
  · intro store h
    unfold autoProvisionBackend
    rw [h]

/-- C7 witness: starting with no stored key, the synchronous call stores
exactly the fresh key and returns it; a second call returns the same
store untouched; and with a key already cached the call returns that
key. -/
theorem auto_provision_idempotent_witness :
    autoProvisionFrontend none freshKey = (some [freshKey], freshKey) ∧
    (autoProvisionFrontend (autoProvisionFrontend none freshKey).1 freshKey2).1 =
      some [freshKey] ∧
    autoProvisionFrontend storeWithKey freshKey = (storeWithKey, cachedKey) := by
  refine ⟨auto_provision_idempotent.2.1 none freshKey rfl,
    auto_provision_idempotent.2.2.2.1 none freshKey freshKey2 rfl,
    auto_provision_idempotent.1 storeWithKey freshKey cachedKey [] rfl⟩

/-- C8: after every call to the App component's `log`, both the React
state and the persisted `medgemma_activity_logs` entry hold the same
list of at most 50 entries — the suffix of the appended list keeping the
50 most recent entries in insertion order; while the log stays within
50 entries nothing is dropped, and once full exactly 50 remain. -/
theorem activity_log_bounded (state : List LogEntry) (e : LogEntry) :
    (appLogStep state e).1.length ≤ 50 ∧
    (appLogStep state e).2 = (appLogStep state e).1 ∧
    (appLogStep state e).1 = (state ++ [e]).drop ((state ++ [e]).length - 50) ∧
    (50 ≤ (state ++ [e]).length → (appLogStep state e).1.length = 50) ∧
    ((state ++ [e]).length ≤ 50 → (appLogStep state e).1 = state ++ [e]) := by
  have h1 : (appLogStep state e).1 =
      (state ++ [e]).drop ((state ++ [e]).length - 50) := rfl
  refine ⟨?_, rfl, h1, fun h => ?_, fun h => ?_⟩
  · rw [h1, List.length_drop]
    omega
  · rw [h1, List.length_drop]
    omega
  · rw [h1]
    have h0 : (state ++ [e]).length - 50 = 0 := by omega
    rw [h0, List.drop_zero]

/-- C8 witness: appending to a log already holding 50 entries keeps
exactly 50, state and persisted copy agreeing. -/
theorem activity_log_bounded_witness :
    (appLogStep (List.replicate 50 logA) logA).1.length = 50 ∧
    (appLogStep (List.replicate 50 logA) logA).2 =
      (appLogStep (List.replicate 50 logA) logA).1 := by
  have h := activity_log_bounded (List.replicate 50 logA) logA
  exact ⟨h.2.2.2.1 (by simp), h.2.1⟩

/-- C9: the FHIR viewer's sync effect never adopts incoming parent data
while a rerun reload is in flight, never adopts incoming data whose
bundle has strictly fewer Observations while the local bundle holds more
than 3, and adopts the incoming data in every other case where incoming
data is present. -/
theorem stale_data_guard (reloading : Bool) (cur : Option Submission)
    (d : Submission) :
    (obsCount (some d) < obsCount cur ∧ 3 < obsCount cur →
      syncStep reloading cur (some d) = cur) ∧
    (reloading = true → syncStep reloading cur (some d) = cur) ∧
    (reloading = false →
      ¬(obsCount (some d) < obsCount cur ∧ 3 < obsCount cur) →
      syncStep reloading cur (some d) = some d) := by
  cases reloading with
  | true =>
    exact ⟨fun _ => rfl, fun _ => rfl, fun h => nomatch h⟩
  | false =>
    refine ⟨fun h => ?_, ?_, fun _ hn => ?_⟩
    · show (if obsCount (some d) < obsCount cur ∧ 3 < obsCount cur
        then cur else some d) = cur
      exact if_pos h
    · intro h
      exact absurd h (by simp)
    · show (if obsCount (some d) < obsCount cur ∧ 3 < obsCount cur
        then cur else some d) = some d
      exact if_neg hn

/-- C9 witness: with 4 local Observations, incoming data with 2 is
ignored; during a reload incoming data is ignored; with only 2 local
Observations, incoming data with 1 is adopted. -/
theorem stale_data_guard_witness :
    syncStep false (some (subWithObs 4)) (some (subWithObs 2)) =
      some (subWithObs 4) ∧
    syncStep true (some (subWithObs 2)) (some (subWithObs 5)) =
      some (subWithObs 2) ∧
    syncStep false (some (subWithObs 2)) (some (subWithObs 1)) =
      some (subWithObs 1) := by
  refine ⟨(stale_data_guard false (some (subWithObs 4)) (subWithObs 2)).1
      ⟨by decide, by decide⟩,
    (stale_data_guard true (some (subWithObs 2)) (subWithObs 5)).2.1 rfl,
    (stale_data_guard false (some (subWithObs 2)) (subWithObs 1)).2.2 rfl
      (by decide)⟩

/-- C10 counterexample: on an Observation with no `valueQuantity` and a
present but empty `valueString`, getValue returns `N/A` rather than the
present valueString — the empty string is falsy in JS — contradicting
the claim that getValue returns valueString whenever it is present. -/
theorem get_value_empty_string :
    obsEmptyStr.valueString = some "" ∧
    getValue obsEmptyStr ≠ JsVal.str "" ∧
    getValue obsEmptyStr = JsVal.str "N/A" := by
  refine ⟨rfl, by decide, rfl⟩

/-- C10 amended: the viewer accessors are total over arbitrary
Observations; getValue returns valueQuantity.value when valueQuantity is
present (`undefined` when the quantity lacks a value), otherwise
valueString when present and non-empty, otherwise `N/A` (an empty
valueString is falsy and treated as absent); getUnit returns
valueQuantity.unit when valueQuantity is present and the empty string
otherwise. -/
theorem viewer_accessors_total (obs : Observation) :
    (∀ q, obs.valueQuantity = some q →
      getValue obs = (match q.value with
        | some v => JsVal.num v
        | none => JsVal.undef) ∧
      getUnit obs = q.unit) ∧
    (obs.valueQuantity = none → ∀ s, obs.valueString = some s → s ≠ "" →
      getValue obs = JsVal.str s) ∧
    (obs.valueQuantity = none →
      (obs.valueString = none ∨ obs.valueString = some "") →
      getValue obs = JsVal.str "N/A") ∧
    (obs.valueQuantity = none → getUnit obs = some "") := by
  refine ⟨fun q hq => ⟨?_, ?_⟩, fun hq s hs hne => ?_, fun hq hs => ?_,
    fun hq => ?_⟩
  · unfold getValue
    rw [hq]
  · unfold getUnit
    rw [hq]
  · unfold getValue
    rw [hq, hs]
    exact if_neg hne
  · unfold getValue
    rw [hq]
    rcases hs with h | h
    · rw [h]
    · rw [h]
      exact if_pos rfl
  · unfold getUnit
    rw [hq]

/-- C10 witness: the accessors evaluated on an Observation with a
quantity, one with a non-empty string, and one with neither value
field. -/
theorem viewer_accessors_total_witness :
    getValue obsNum7 = JsVal.num 7 ∧
    getUnit obsNum7 = some "g/dL" ∧
    getValue obsAbc = JsVal.str "abc" ∧
    getUnit obsAbc = some "" ∧
    getValue (Observation.mk none none none) = JsVal.str "N/A" := by
  have h7 := (viewer_accessors_total obsNum7).1 ⟨some 7, some "g/dL"⟩ rfl
  refine ⟨h7.1, h7.2,
    (viewer_accessors_total obsAbc).2.1 rfl "abc" rfl (by decide),
    (viewer_accessors_total obsAbc).2.2.2 rfl,
    (viewer_accessors_total (Observation.mk none none none)).2.2.1 rfl
      (Or.inl rfl)⟩

end MedGemma
